import Mathlib

/-!
# Verification of the audio-reactive DMX lighting system

Shallow embedding of the core of the repository (`app/audio.py`,
`app/lighting.py`, `app/config.py`) and proofs settling the frozen claims
about it.  Numeric values are embedded as exact rationals (Python floats
are used only for bounded arithmetic here); `math.sin`/`math.cos` and the
`random` module are modelled as explicit oracle parameters, so that every
definition stays computable and every theorem quantifies over (or fixes)
the oracle.
-/

namespace Lightshow

/-- Python `int(x)`: truncation toward zero of a rational. -/
def pyInt (q : ℚ) : ℤ :=
  if q < 0 then -(⌊-q⌋) else ⌊q⌋

/-- Python `x % m` for floats with a positive modulus `m`:
the result is `x - m*⌊x/m⌋`, always in `[0, m)`. -/
def pymod (x m : ℚ) : ℚ := x - m * (⌊x / m⌋ : ℤ)

/-- `collections.deque(maxlen := cap)` append: push and drop from the front
when over capacity. -/
def pushCap (cap : ℕ) (xs : List ℚ) (x : ℚ) : List ℚ :=
  let ys := xs ++ [x]
  if cap < ys.length then ys.drop (ys.length - cap) else ys

/-- `np.mean` of a list of rationals (0 on the empty list, never used there). -/
def qmean (l : List ℚ) : ℚ := l.sum / l.length

/-- Insert into a sorted list (ascending). -/
def insertSorted (x : ℚ) : List ℚ → List ℚ
  | [] => [x]
  | y :: ys => if x ≤ y then x :: y :: ys else y :: insertSorted x ys

/-- Insertion sort, ascending. -/
def sortQ (l : List ℚ) : List ℚ := l.foldr insertSorted []

/-- `np.median`: middle element of the sorted list for odd length, mean of
the two middle elements for even length (0 on the empty list). -/
def qmedian (l : List ℚ) : ℚ :=
  let s := sortQ l
  let n := s.length
  if n = 0 then 0
  else if n % 2 = 1 then s.getD (n / 2) 0
  else (s.getD (n / 2 - 1) 0 + s.getD (n / 2) 0) / 2

/-! ## Configuration (`app/config.py`) -/

def SILENCE_THRESHOLD : ℚ := 1/100
def SILENCE_FRAME_COUNT : ℕ := 44
def MIN_BPM : ℚ := 60
def MAX_BPM : ℚ := 180
def DMX_CHANNELS : ℕ := 56
def UPDATE_FPS : ℚ := 30
def DEFAULT_LIGHT_COUNT : ℕ := 4
def MAX_LIGHTS : ℕ := 8

/-! ## Feature extractor (`app/audio.py`, class `AudioAnalyzer`) -/

/-- Genre hint labels (`detected_genre`); `auto` is the initial value. -/
inductive Genre | auto | edm | rock | hiphop | jazz | ambient
deriving DecidableEq, Repr

/-- A beat event pushed onto the beat queue by `_handle_beat`. -/
structure BeatEvent where
  timestamp : ℚ
  bpm : ℚ
  intensity : ℚ
deriving DecidableEq, Repr

/-- Mutable state of `AudioAnalyzer` (the fields assigned in `__init__`
that the analysis loop reads and writes; the audio stream handle and the
aubio detector are external collaborators, their outputs enter as inputs
of the step functions). `genre_hints` is the five-entry score dict in its
insertion order edm, rock, hiphop, jazz, ambient. -/
structure AnalyzerState where
  current_bpm : ℚ
  current_intensity : ℚ
  audio_active : Bool
  bass_intensity : ℚ
  mid_intensity : ℚ
  high_intensity : ℚ
  intensity_trend : List ℚ     -- deque(maxlen=30)
  is_building : Bool
  is_drop : Bool
  build_start_time : ℚ
  hint_edm : ℚ
  hint_rock : ℚ
  hint_hiphop : ℚ
  hint_jazz : ℚ
  hint_ambient : ℚ
  detected_genre : Genre
  beat_timestamps : List ℚ      -- deque(maxlen=8)
  last_beat_time : ℚ
  intensity_history : List ℚ    -- deque(maxlen=5)
  silent_frames : ℕ
deriving DecidableEq, Repr

/-- The analyzer state right after `AudioAnalyzer.__init__`. -/
def initAnalyzer : AnalyzerState where
  current_bpm := 0
  current_intensity := 0
  audio_active := false
  bass_intensity := 0
  mid_intensity := 0
  high_intensity := 0
  intensity_trend := []
  is_building := false
  is_drop := false
  build_start_time := 0
  hint_edm := 0
  hint_rock := 0
  hint_hiphop := 0
  hint_jazz := 0
  hint_ambient := 0
  detected_genre := .auto
  beat_timestamps := []
  last_beat_time := 0
  intensity_history := []
  silent_frames := 0

/-- `AudioAnalyzer._handle_beat(current_time)`: debounce beats closer than
100 ms, record the timestamp (deque of 8), recompute the BPM as the
clamped `60 / median` of the surviving inter-beat intervals, and emit a
beat event. Returns the new state and the event put on the beat queue
(`none` when the beat was debounced away). -/
def handleBeat (s : AnalyzerState) (current_time : ℚ) :
    AnalyzerState × Option BeatEvent :=
  if current_time - s.last_beat_time < 1/10 then (s, none)
  else
    let ts := pushCap 8 s.beat_timestamps current_time
    let intervals :=
      ((List.range ts.length).drop 1).filterMap fun i =>
        let d := ts.getD i 0 - ts.getD (i - 1) 0
        if 1/5 < d ∧ d < 2 then some d else none
    let bpm :=
      if 2 ≤ ts.length ∧ intervals ≠ [] then
        max MIN_BPM (min MAX_BPM (60 / qmedian intervals))
      else s.current_bpm
    let s' := { s with
      last_beat_time := current_time
      beat_timestamps := ts
      current_bpm := bpm }
    (s', some ⟨current_time, s'.current_bpm, s'.current_intensity⟩)

/-- `AudioAnalyzer._update_intensity(rms)`: 5-sample rolling average of the
RMS history, blended `0.7` old / `0.3` new with the previous smoothed
value, then clamped above by 1. -/
def updateIntensity (s : AnalyzerState) (rms : ℚ) : AnalyzerState :=
  let hist := pushCap 5 s.intensity_history rms
  let smoothed := qmean hist
  let ci := (7/10) * s.current_intensity + (3/10) * smoothed
  { s with intensity_history := hist, current_intensity := min 1 ci }

/-- `AudioAnalyzer._analyze_frequencies(samples)`: the FFT band aggregation
is abstracted to its three per-band mean magnitudes (`bassMean`,
`midMean`, `highMean`) — the function divides them by the empirical scale
constants 1000/500/250 and clamps above by 1. -/
def analyzeFrequencies (s : AnalyzerState) (bassMean midMean highMean : ℚ) :
    AnalyzerState :=
  { s with
    bass_intensity := min 1 (bassMean / 1000)
    mid_intensity := min 1 (midMean / 500)
    high_intensity := min 1 (highMean / 250) }

/-- The flag/timer updates of `_detect_build_drop` once at least 10
samples are in the trend window, factored over the two boolean test
results: `b1` is "recent mean exceeds older mean by 20 % and not already
building" (Building entry), `t2` is "instantaneous intensity exceeds
1.5× the recent mean" (Drop entry test). Returns
(is_building, is_drop, build_start_time). -/
def buildDropFlags (old_building old_drop : Bool) (old_start : ℚ)
    (b1 t2 : Bool) (now : ℚ) : Bool × Bool × ℚ :=
  let building1 := if b1 then true else old_building
  let build_start := if b1 then now else old_start
  let b2 := building1 && t2
  let drop1 := if b2 then true else old_drop
  let building2 := if b2 then false else building1
  let drop2 := if drop1 && decide (now - build_start > 1) then false else drop1
  (building2, drop2, build_start)

/-- `AudioAnalyzer._detect_build_drop(intensity)`: push the intensity onto
the 30-sample trend deque; once 10 samples are present, compare the mean
of the most recent 10 against the mean of the older samples; enter
Building when the recent mean exceeds the older mean by 20 %; enter Drop
(clearing Building) when the instantaneous intensity exceeds 1.5× the
recent mean; clear Drop once more than 1 s has passed since
`build_start_time`. `now` is `time.time()`. -/
def detectBuildDrop (s : AnalyzerState) (intensity now : ℚ) : AnalyzerState :=
  let trend := pushCap 30 s.intensity_trend intensity
  if trend.length < 10 then { s with intensity_trend := trend }
  else
    let recent := trend.drop (trend.length - 10)
    let older := if 10 < trend.length then trend.take (trend.length - 10) else recent
    let recent_avg := qmean recent
    let older_avg := if older ≠ [] then qmean older else recent_avg
    let f := buildDropFlags s.is_building s.is_drop s.build_start_time
      (decide (recent_avg > older_avg * (6/5)) && !s.is_building)
      (decide (intensity > recent_avg * (3/2))) now
    { s with
      intensity_trend := trend
      is_building := f.1
      is_drop := f.2.1
      build_start_time := f.2.2 }

/-- `AudioAnalyzer._detect_genre(bpm, bass_intensity, has_beat)`: decay all
five scores by 0.99, add the per-genre increments, then report the first
genre (dict order edm, rock, hiphop, jazz, ambient) attaining the maximal
score once that score exceeds 0.5. -/
def detectGenre (s : AnalyzerState) (bpm bass : ℚ) (has_beat : Bool) :
    AnalyzerState :=
  let e := s.hint_edm * (99/100)
  let r := s.hint_rock * (99/100)
  let h := s.hint_hiphop * (99/100)
  let j := s.hint_jazz * (99/100)
  let a := s.hint_ambient * (99/100)
  let e := if 120 ≤ bpm ∧ bpm ≤ 140 ∧ bass > 3/5 ∧ has_beat then e + 1/10 else e
  let h := if 80 ≤ bpm ∧ bpm ≤ 100 ∧ bass > 7/10 then h + 1/10 else h
  let r := if 100 ≤ bpm ∧ bpm ≤ 140 ∧ 3/10 < bass ∧ bass < 7/10 then r + 1/10 else r
  let j := if 60 ≤ bpm ∧ bpm ≤ 150 ∧ ¬has_beat then j + 1/20 else j
  let a := if (bpm < 80 ∨ bpm = 0) ∧ bass < 3/10 then a + 1/10 else a
  let m := max e (max r (max h (max j a)))
  let g :=
    if m > 1/2 then
      if e = m then Genre.edm
      else if r = m then Genre.rock
      else if h = m then Genre.hiphop
      else if j = m then Genre.jazz
      else Genre.ambient
    else s.detected_genre
  { s with hint_edm := e, hint_rock := r, hint_hiphop := h,
           hint_jazz := j, hint_ambient := a, detected_genre := g }

/-- `AudioAnalyzer._update_audio_presence(rms)`: count consecutive
below-threshold blocks; audio is active while the count is below
`SILENCE_FRAME_COUNT`. -/
def updateAudioPresence (s : AnalyzerState) (rms : ℚ) : AnalyzerState :=
  let sf := if rms < SILENCE_THRESHOLD then s.silent_frames + 1 else 0
  { s with silent_frames := sf, audio_active := decide (sf < SILENCE_FRAME_COUNT) }

/-- `AudioAnalyzer._update_shared_state()`: acquires the state lock and
executes `pass` — it writes nothing; the body is the identity. -/
def updateSharedState (s : AnalyzerState) : AnalyzerState := s

/-- The snapshot dictionary returned by `AudioAnalyzer.get_state()`. -/
structure AudioSnapshot where
  bpm : ℚ
  intensity : ℚ
  audio_active : Bool
  bass : ℚ
  mid : ℚ
  high : ℚ
  is_building : Bool
  is_drop : Bool
  genre : Genre
deriving DecidableEq, Repr

/-- `AudioAnalyzer.get_state()`: read the nine snapshot fields (under the
state lock). -/
def getState (s : AnalyzerState) : AudioSnapshot where
  bpm := s.current_bpm
  intensity := s.current_intensity
  audio_active := s.audio_active
  bass := s.bass_intensity
  mid := s.mid_intensity
  high := s.high_intensity
  is_building := s.is_building
  is_drop := s.is_drop
  genre := s.detected_genre

/-- One iteration of `AudioAnalyzer._audio_loop` after the blocking read,
in source order: beat handling (when the tempo detector fired), intensity
smoothing, band analysis, build/drop, genre, presence, and the (no-op)
shared-state publication. `current_time` is `time.time() - start_time`
(used for beats) and `now` is `time.time()` (used by build/drop).
Returns the new state and the beat event enqueued, if any. -/
def audioBlockStep (s : AnalyzerState) (beatDetected : Bool)
    (rms bassMean midMean highMean current_time now : ℚ) :
    AnalyzerState × Option BeatEvent :=
  let (s, ev) := if beatDetected then handleBeat s current_time else (s, none)
  let s := updateIntensity s rms
  let s := analyzeFrequencies s bassMean midMean highMean
  let s := detectBuildDrop s s.current_intensity now
  let s := detectGenre s s.current_bpm s.bass_intensity beatDetected
  let s := updateAudioPresence s rms
  let s := updateSharedState s
  (s, ev)

/-! ## Lighting engine configuration (`app/config.py`) -/

/-- One PAR fixture: start channel and the logical-channel → byte-offset
map (`None` when a fixture lacks the channel). -/
structure Fixture where
  start_channel : ℕ
  dimmer : Option ℕ
  red : Option ℕ
  green : Option ℕ
  blue : Option ℕ
  strobe : Option ℕ
  mode : Option ℕ
  speed : Option ℕ
deriving DecidableEq, Repr

/-- All eight PARs share the same channel layout. -/
def mkPar (start : ℕ) : Fixture :=
  ⟨start, some 0, some 1, some 2, some 3, some 4, some 5, some 6⟩

def LIGHT_FIXTURES : List Fixture :=
  [mkPar 1, mkPar 8, mkPar 15, mkPar 22, mkPar 29, mkPar 36, mkPar 43, mkPar 50]

/-- `LIGHTING_SETTINGS['brightness_base']`. -/
def brightness_base : ℚ := 3/5
/-- `LIGHTING_SETTINGS['beat_flash_duration']`. -/
def beat_flash_duration : ℚ := 1/2

def SMOOTH_COLOR_PALETTE : List (ℤ × ℤ × ℤ) :=
  [(255,0,0),(255,64,0),(255,128,0),(255,192,0),(255,255,0),(192,255,0),
   (0,255,0),(0,255,128),(0,255,255),(0,128,255),(0,0,255),(128,0,255),
   (255,0,255),(255,0,128)]

def WARM_COLOR_PALETTE : List (ℤ × ℤ × ℤ) :=
  [(255,0,0),(255,32,0),(255,64,0),(255,96,0),(255,128,0),(255,160,0),
   (255,192,0),(255,224,0),(255,255,0),(255,255,64),(255,192,128),(255,128,64)]

def COOL_COLOR_PALETTE : List (ℤ × ℤ × ℤ) :=
  [(0,0,255),(0,64,255),(0,128,255),(0,192,255),(0,255,255),(0,255,192),
   (0,255,128),(64,128,255),(128,0,255),(192,0,255),(255,0,255),(255,0,192)]

/-- Keys of `COLOR_THEMES` (the valid theme names). -/
inductive Theme
  | default | sunset | ocean | fire | forest | galaxy | monochrome | warm | cool
deriving DecidableEq, Repr

/-- `COLOR_THEMES` lookup (every `Theme` value is a key of the dict). -/
def themePalette : Theme → List (ℤ × ℤ × ℤ)
  | .default => SMOOTH_COLOR_PALETTE
  | .sunset =>
      [(128,0,128),(192,0,128),(255,0,128),(255,64,128),(255,128,64),
       (255,192,0),(255,128,0),(255,64,0),(255,0,0),(192,0,0)]
  | .ocean =>
      [(0,0,64),(0,0,128),(0,64,192),(0,128,255),(0,192,255),
       (0,255,255),(64,255,192),(128,255,128),(0,255,128),(0,192,128)]
  | .fire =>
      [(64,0,0),(128,0,0),(192,0,0),(255,0,0),(255,64,0),
       (255,128,0),(255,192,0),(255,255,0),(255,255,128),(255,255,255)]
  | .forest =>
      [(0,64,0),(0,96,0),(0,128,0),(0,192,0),(64,255,0),
       (128,255,0),(192,255,0),(255,255,0),(192,192,0),(128,128,0)]
  | .galaxy =>
      [(64,0,128),(96,0,192),(128,0,255),(64,64,255),(0,128,255),
       (0,192,255),(0,255,255),(128,255,255),(192,192,255),(255,255,255)]
  | .monochrome =>
      [(255,255,255),(224,224,224),(192,192,192),(160,160,160),(128,128,128),
       (96,96,96),(64,64,64),(32,32,32),(64,64,64),(128,128,128)]
  | .warm => WARM_COLOR_PALETTE
  | .cool => COOL_COLOR_PALETTE

/-! ## Lighting engine state (`app/lighting.py`, class `DmxController`) -/

/-- The valid pattern names accepted by `set_pattern` (and the chaos
pattern switch). -/
inductive Pat | sync | wave | center | alternate | mirror | swell
deriving DecidableEq, Repr

/-- The valid effect names accepted by `set_effect_mode`. -/
inductive Effect | none | breathe | sparkle | chase | pulse | sweep | firefly
deriving DecidableEq, Repr

/-- Mutable state of `DmxController` (the fields assigned in `__init__`
minus the OLA client handles and thread plumbing). `firefly_states` is
created lazily by the firefly effect in the source with initial value
`[0]*MAX_LIGHTS`; it is kept as an always-present field with the same
initial value, which is observationally identical. -/
structure ControllerState where
  active_lights : ℕ
  current_color_index : ℕ
  beat_flash_time : List ℚ
  last_beat_time : ℚ
  target_colors : List (ℤ × ℤ × ℤ)
  current_colors : List (ℤ × ℤ × ℤ)
  color_fade_progress : List ℚ
  last_color_change : ℚ
  color_phases : List ℚ
  smoothness : ℚ
  rainbow_level : ℚ
  brightness_control : ℚ
  strobe_level : ℚ
  beat_sensitivity : ℚ
  mood_match : Bool
  pattern : Pat
  bpm_sync : ℚ
  frequency_mode : Bool
  color_theme : Theme
  effect_mode : Effect
  echo_enabled : Bool
  echo_length : ℚ
  chaos_level : ℚ
  ambient_mode : Bool
  genre_auto : Bool
  echo_buffer : List (List ℕ)
  effect_phase : ℚ
  sparkle_positions : List ℕ
  chase_position : ℕ
  swell_phase : ℚ
  spectrum_mode : Bool
  chaos_colors : List (ℤ × ℤ × ℤ)
  chaos_pattern_timer : ℚ
  firefly_states : List ℚ
deriving DecidableEq, Repr

/-- Oracle for `math.sin` / `math.cos`: `sin x` models `math.sin(x)` and
`cosPi x` models `math.cos(x * math.pi)` (the only use of `math.pi`).
Theorems hold for every oracle, in particular the true trigonometric
functions. -/
structure Trig where
  sin : ℚ → ℚ
  cosPi : ℚ → ℚ

/-- Oracle for the `random` module, indexed by a running call counter:
`float k` models the `k`-th `random.random()`, `int k a b` models
`random.randint(a, b)`, `sample k n m` models `random.sample(range(n), m)`
and `shuffle k n` models a shuffle of `list(range(n))`. -/
structure Rand where
  float : ℕ → ℚ
  int : ℕ → ℤ → ℤ → ℤ
  sample : ℕ → ℕ → ℕ → List ℕ
  shuffle : ℕ → ℕ → List ℕ

/-- List lookup for the per-fixture color arrays (indices stay in bounds
in the source; out-of-bounds defaults to black). -/
def getC (l : List (ℤ × ℤ × ℤ)) (i : ℕ) : ℤ × ℤ × ℤ := l.getD i (0, 0, 0)

/-- `(int(c*0.3), ...)`: the 30 % dimming applied to the inactive group of
the `alternate` pattern and to non-leading lights of `chase`. -/
def dim03 (col : ℤ × ℤ × ℤ) : ℤ × ℤ × ℤ :=
  (pyInt ((col.1 : ℚ) * (3/10)), pyInt ((col.2.1 : ℚ) * (3/10)),
   pyInt ((col.2.2 : ℚ) * (3/10)))

/-- `DmxController._apply_genre_adaptation(audio_state)`: when
`genre_auto` is on, overwrite a subset of the parameters from the
detected genre. -/
def applyGenreAdaptation (c : ControllerState) (a : AudioSnapshot) :
    ControllerState :=
  if ¬c.genre_auto then c
  else match a.genre with
  | .edm => { c with smoothness := 1/5, beat_sensitivity := 4/5, strobe_level := 3/10 }
  | .hiphop => { c with smoothness := 2/5, beat_sensitivity := 9/10, rainbow_level := 3/10 }
  | .rock =>
      let th := if c.color_theme = .default then Theme.warm else c.color_theme
      { c with smoothness := 1/2, beat_sensitivity := 3/5, color_theme := th }
  | .jazz => { c with smoothness := 4/5, beat_sensitivity := 3/10, rainbow_level := 1/5 }
  | .ambient => { c with smoothness := 19/20, beat_sensitivity := 1/10, ambient_mode := true }
  | .auto => c

/-- `DmxController._apply_frequency_colors(r, g, b, audio_state)`. -/
def applyFrequencyColors (c : ControllerState) (r g b : ℤ) (a : AudioSnapshot) :
    ℤ × ℤ × ℤ :=
  if ¬c.frequency_mode then (r, g, b)
  else
    let r' := pyInt ((r : ℚ) * (3/10) + a.bass * 255 * (7/10))
    let g' := pyInt ((g : ℚ) * (3/10) + a.mid * 255 * (7/10))
    let b' := pyInt ((b : ℚ) * (3/10) + a.high * 255 * (7/10))
    (min 255 r', min 255 g', min 255 b')

/-- `DmxController._apply_spectrum_colors(audio_state)`. -/
def applySpectrumColors (a : AudioSnapshot) : ℤ × ℤ × ℤ :=
  let r := pyInt (255 * (a.bass * (4/5) + a.mid * (1/5)))
  let g := pyInt (255 * (a.mid * (7/10) + a.bass * (1/5) + a.high * (1/10)))
  let b := pyInt (255 * (a.high * (4/5) + a.mid * (1/5)))
  let rgb := if r + g + b < 100 then (max 40 r, max 40 g, max 40 b) else (r, g, b)
  (min 255 rgb.1, min 255 rgb.2.1, min 255 rgb.2.2)

/-- `DmxController._apply_special_effect(r, g, b, light_index,
current_time, intensity)`: returns the new color, the possibly-updated
controller state (`firefly_states`), and the advanced random counter. -/
def applySpecialEffect (T : Trig) (rng : Rand) (c : ControllerState)
    (r g b : ℤ) (i : ℕ) (now intensity : ℚ) (k : ℕ) :
    (ℤ × ℤ × ℤ) × ControllerState × ℕ :=
  match c.effect_mode with
  | .none => ((r, g, b), c, k)
  | .breathe =>
      let speed : ℚ := if ¬c.ambient_mode then 1/2 else 1/5
      let breathe := (T.sin (now * speed) + 1) / 2
      let factor := 1/2 + breathe * (1/2)
      ((pyInt ((r : ℚ) * factor), pyInt ((g : ℚ) * factor),
        pyInt ((b : ℚ) * factor)), c, k)
  | .sparkle =>
      if rng.float k < (1/20) * (1 + intensity) then
        if rng.int (k+1) 0 ((c.active_lights : ℤ) - 1) = (i : ℤ) then
          ((255, 255, 255), c, k + 2)
        else ((r, g, b), c, k + 2)
      else ((r, g, b), c, k + 1)
  | .chase =>
      let speed : ℚ := if ¬c.ambient_mode then 2 else 1/2
      let pos := pyInt (pymod (now * speed) (c.active_lights : ℚ))
      if pos = (i : ℤ) then
        ((min 255 (r * 2), min 255 (g * 2), min 255 (b * 2)), c, k)
      else (dim03 (r, g, b), c, k)
  | .pulse =>
      let factor := 1 + c.beat_sensitivity * (1/2)
      if c.last_beat_time ≠ 0 ∧ now - c.last_beat_time < 1/10 then
        ((min 255 (pyInt ((r : ℚ) * factor)), min 255 (pyInt ((g : ℚ) * factor)),
          min 255 (pyInt ((b : ℚ) * factor))), c, k)
      else ((r, g, b), c, k)
  | .sweep =>
      let speed : ℚ := if ¬c.ambient_mode then 1 else 3/10
      let sp := pymod (now * speed + (i : ℚ) * (1/5)) 1
      if sp < 33/100 then ((255, pyInt (sp * 3 * 255), 0), c, k)
      else if sp < 66/100 then
        ((pyInt ((1 - (sp - 33/100) * 3) * 255), 255, 0), c, k)
      else ((0, pyInt ((1 - (sp - 66/100) * 3) * 255), 255), c, k)
  | .firefly =>
      let ff := if rng.float k < 1/100 then c.firefly_states.set i 1
                else c.firefly_states
      let k := k + 1
      if ff.getD i 0 > 0 then
        let tw := ff.getD i 0
        ((min 255 (pyInt ((r : ℚ) + (255 - (r : ℚ)) * tw)),
          min 255 (pyInt ((g : ℚ) + (255 - (g : ℚ)) * tw)),
          min 255 (pyInt ((b : ℚ) + (255 - (b : ℚ)) * tw))),
         { c with firefly_states := ff.set i (tw * (19/20)) }, k)
      else ((r, g, b), { c with firefly_states := ff }, k)

/-- `DmxController._apply_chaos(r, g, b, light_index, beat_occurred)`:
possibly re-draws the chaos color of this light, blends it in, and on a
beat possibly switches the pattern at random. -/
def applyChaos (rng : Rand) (c : ControllerState) (r g b : ℤ) (i : ℕ)
    (beatOccurred : Bool) (k : ℕ) : (ℤ × ℤ × ℤ) × ControllerState × ℕ :=
  if c.chaos_level ≤ 0 then ((r, g, b), c, k)
  else
    let (cc, k) :=
      if rng.float k < c.chaos_level * (1/10) then
        (c.chaos_colors.set i
          (rng.int (k+1) 0 255, rng.int (k+2) 0 255, rng.int (k+3) 0 255), k + 4)
      else (c.chaos_colors, k + 1)
    let ccol := cc.getD i (0, 0, 0)
    let blend := c.chaos_level * (1/2)
    let r := pyInt ((r : ℚ) * (1 - blend) + (ccol.1 : ℚ) * blend)
    let g := pyInt ((g : ℚ) * (1 - blend) + (ccol.2.1 : ℚ) * blend)
    let b := pyInt ((b : ℚ) * (1 - blend) + (ccol.2.2 : ℚ) * blend)
    let (pat, k) :=
      if beatOccurred then
        if rng.float k < c.chaos_level * (1/20) then
          ([Pat.sync, .wave, .center, .alternate, .mirror].getD
             ((rng.int (k+1) 0 4).toNat % 5) .sync, k + 2)
        else (c.pattern, k + 1)
      else (c.pattern, k)
    ((r, g, b), { c with chaos_colors := cc, pattern := pat }, k)

/-- `DmxController._apply_mood_adjustment(r, g, b, intensity)`. -/
def applyMoodAdjustment (r g b : ℤ) (intensity : ℚ) : ℤ × ℤ × ℤ :=
  let rgb :=
    if intensity < 3/10 then
      let cool := 1 - intensity / (3/10)
      (pyInt ((r : ℚ) * (1/2 + 1/2 * (1 - cool))),
       pyInt ((g : ℚ) * (7/10 + 3/10 * (1 - cool))),
       min 255 (pyInt ((b : ℚ) * (1 + cool * (1/2)))))
    else if intensity > 7/10 then
      let warm := (intensity - 7/10) / (3/10)
      (min 255 (pyInt ((r : ℚ) * (1 + warm * (1/2)))),
       pyInt ((g : ℚ) * (4/5 + 1/5 * (1 - warm * (1/2)))),
       pyInt ((b : ℚ) * (1/2 + 1/2 * (1 - warm))))
    else (r, g, b)
  (max 0 (min 255 rgb.1), max 0 (min 255 rgb.2.1), max 0 (min 255 rgb.2.2))

/-- `DmxController._apply_pattern(light_index, current_time)`. -/
def applyPattern (T : Trig) (c : ControllerState) (i : ℕ) (now : ℚ) :
    ℤ × ℤ × ℤ :=
  match c.pattern with
  | .sync => getC c.current_colors i
  | .wave =>
      let speed := 1/5 + (1 - c.smoothness) * 1
      let phase := (now * speed + c.color_phases.getD i 0) * 2 * (314159/100000)
      let wf := (T.sin phase + 1) / 2
      let base := getC c.current_colors i
      let nidx := (i + 1) % max 1 c.active_lights
      let nextColor := if nidx < c.current_colors.length
        then getC c.current_colors nidx else getC c.current_colors 0
      (pyInt ((base.1 : ℚ) * (1 - wf) + (nextColor.1 : ℚ) * wf),
       pyInt ((base.2.1 : ℚ) * (1 - wf) + (nextColor.2.1 : ℚ) * wf),
       pyInt ((base.2.2 : ℚ) * (1 - wf) + (nextColor.2.2 : ℚ) * wf))
  | .center =>
      let cidx := c.active_lights / 2
      if c.active_lights % 2 = 1 ∧ i = cidx then getC c.current_colors cidx
      else if c.active_lights % 2 = 0 ∧ (i = cidx ∨ i = cidx - 1) then
        getC c.current_colors i
      else
        let delay := pyInt (10 * c.smoothness)
        if delay = 0 then getC c.current_colors cidx else getC c.current_colors i
  | .alternate =>
      let bp := (pyInt (now * 2)).emod 2
      if c.active_lights ≤ 2 then
        if bp = 0 then getC c.current_colors i else dim03 (getC c.current_colors i)
      else
        if ((i % 2 : ℕ) : ℤ) = bp then getC c.current_colors i
        else dim03 (getC c.current_colors i)
  | .mirror =>
      if c.active_lights = 1 then getC c.current_colors 0
      else
        let mp : ℚ := (c.active_lights : ℚ) / 2
        if (i : ℚ) < mp then getC c.current_colors i
        else getC c.current_colors (c.active_lights - 1 - i)
  | .swell => getC c.current_colors i

/-- The per-light assignment loops of `_select_new_colors`: write
`f i` into `target_colors[i]` and reset `color_fade_progress[i]` for
every active light. -/
def assignTargets (c : ControllerState) (f : ℕ → ℤ × ℤ × ℤ) : ControllerState :=
  (List.range c.active_lights).foldl (fun c2 i =>
    { c2 with target_colors := c2.target_colors.set i (f i),
              color_fade_progress := c2.color_fade_progress.set i 0 }) c

/-- `DmxController._select_new_colors()`: pick new target colors per the
rainbow-diversity tier and reset the fade progress of every active light.
(The `try/except` wrapper of the source is unreachable here: the
embedding is total and the guarded palette is nonempty.) -/
def selectNewColors (rng : Rand) (c : ControllerState) (k : ℕ) :
    ControllerState × ℕ :=
  let palette0 := themePalette c.color_theme
  let palette := if palette0.length = 0 then [((255 : ℤ), (0 : ℤ), (0 : ℤ))] else palette0
  let palette_size := palette.length
  let assign := assignTargets c
  if c.rainbow_level < 1/5 then
    let current_idx := (palette.findIdx? (· = getC c.target_colors 0)).getD 0
    let next_idx := (current_idx + 1) % palette_size
    (assign (fun _ => getC palette next_idx), k)
  else if c.rainbow_level < 1/2 then
    let base_idx := rng.int k 0 (max 0 ((palette_size : ℤ) - 1))
    let spread := (max 1 (pyInt ((palette_size : ℚ) * (3/10)))).toNat
    (assign (fun i =>
      let offset := i * spread / max 1 c.active_lights
      getC palette ((base_idx + (offset : ℤ)).emod palette_size).toNat), k + 1)
  else if c.rainbow_level < 4/5 then
    let spread := max 1 (palette_size / 3)
    (assign (fun i =>
      let ro := rng.int (k + i) 0 (max 0 ((spread : ℤ) - 1))
      getC palette (((i * spread : ℕ) + ro).emod palette_size).toNat),
     k + c.active_lights)
  else
    let needed := min c.active_lights palette_size
    let indices := if needed ≤ palette_size then rng.sample k palette_size needed
                   else rng.shuffle k palette_size
    (assign (fun i =>
      getC palette (indices.getD (i % max 1 indices.length) 0)), k + 1)

/-- `DmxController._update_color_fades()`: advance each active light's
fade progress and ease-in-out interpolate its current color toward the
target. -/
def updateColorFades (T : Trig) (c : ControllerState) : ControllerState :=
  let bpm_factor := max (1/10) c.bpm_sync
  let fade_time := 1/10 + c.smoothness * (19/10)
  let fade_speed := (1 / (fade_time * UPDATE_FPS)) * bpm_factor
  (List.range c.active_lights).foldl (fun c i =>
    if c.color_fade_progress.getD i 0 < 1 then
      let p := min 1 (c.color_fade_progress.getD i 0 + fade_speed)
      let cur := getC c.current_colors i
      let tgt := getC c.target_colors i
      let sp := 1/2 - 1/2 * T.cosPi p
      { c with
        color_fade_progress := c.color_fade_progress.set i p
        current_colors := c.current_colors.set i
          (pyInt ((cur.1 : ℚ) + ((tgt.1 : ℚ) - (cur.1 : ℚ)) * sp),
           pyInt ((cur.2.1 : ℚ) + ((tgt.2.1 : ℚ) - (cur.2.1 : ℚ)) * sp),
           pyInt ((cur.2.2 : ℚ) + ((tgt.2.2 : ℚ) - (cur.2.2 : ℚ)) * sp)) }
    else c) c

/-- `DmxController._update_colors(beat_occurred, intensity)` (the
control-lock acquisition is modelled as successful). -/
def updateColors (T : Trig) (rng : Rand) (c : ControllerState)
    (beatOccurred : Bool) (intensity now : ℚ) (k : ℕ) :
    ControllerState × ℕ :=
  let bpm_factor := 1 / max (1/10) c.bpm_sync
  let iv :=
    if c.pattern = .swell then ((5 + c.smoothness * 10) * bpm_factor, false)
    else if c.spectrum_mode then ((3 + c.smoothness * 5) * bpm_factor, false)
    else if c.rainbow_level < 1/5 then ((3 + c.smoothness * 5) * bpm_factor, false)
    else if c.rainbow_level < 1/2 then
      ((2 + c.smoothness * 3) * bpm_factor, beatOccurred && decide (intensity > 3/5))
    else if c.rainbow_level < 4/5 then
      ((1 + c.smoothness * 2) * bpm_factor, beatOccurred && decide (intensity > 2/5))
    else ((1/2 + c.smoothness * 1) * bpm_factor, beatOccurred)
  let time_to_change := decide (now - c.last_color_change > iv.1)
  let ck :=
    if time_to_change || iv.2 then
      selectNewColors rng { c with last_color_change := now } k
    else (c, k)
  (updateColorFades T ck.1, ck.2)

/-- The write of one byte value into the channel buffer, with the
"round nonzero values up to at least 1, clamp at 255" rule of the
dimmer/red/green/blue writes. -/
def byteFloor (v : ℤ) : ℕ := (min 255 (if v > 0 then max 1 v else v)).toNat

/-- The body of the per-fixture loop of `_compute_dmx_frame` for light
`i`: the five color layers, the brightness model, and the channel
writes. Threads the controller state, the channel buffer and the random
counter. -/
def renderLight (T : Trig) (rng : Rand) (a : AudioSnapshot)
    (beatOccurred : Bool) (now : ℚ)
    (acc : ControllerState × List ℕ × ℕ) (i : ℕ) :
    ControllerState × List ℕ × ℕ :=
  let c := acc.1
  let data := acc.2.1
  let k := acc.2.2
  let fx := LIGHT_FIXTURES.getD i (mkPar 1)
  let base := fx.start_channel - 1
  let intensity := a.intensity
  let rgb := applyPattern T c i now
  let rgb := if c.spectrum_mode then applySpectrumColors a
             else applyFrequencyColors c rgb.1 rgb.2.1 rgb.2.2 a
  let rgb := if c.mood_match then applyMoodAdjustment rgb.1 rgb.2.1 rgb.2.2 intensity
             else rgb
  let eff := applySpecialEffect T rng c rgb.1 rgb.2.1 rgb.2.2 i now intensity k
  let rgb := eff.1
  let ch := applyChaos rng eff.2.1 rgb.1 rgb.2.1 rgb.2.2 i beatOccurred eff.2.2
  let rgb := ch.1
  let c := ch.2.1
  let k := ch.2.2
  let bc :=
    if c.spectrum_mode then
      let fb := a.bass * (1/2) + a.mid * (3/10) + a.high * (1/5)
      (min 1 (fb * brightness_base), c)
    else if c.pattern = .swell then
      let swell_speed := 1/10 + (1 - c.smoothness) * (1/2)
      let c := { c with swell_phase := c.swell_phase + swell_speed * (1 / UPDATE_FPS) }
      let swell_factor := (T.sin (c.swell_phase * 2 * (314159/100000)) + 1) / 2
      let bb := 1/5 + intensity * (1/2)
      (min 1 ((bb + swell_factor * (3/10)) * brightness_base), c)
    else
      let beat_boost :=
        if beatOccurred ∧ ¬c.spectrum_mode then
          let tsb := now - c.last_beat_time
          let bd :=
            if c.smoothness < 1/2 then beat_flash_duration * (1/5 + c.smoothness * (8/5))
            else beat_flash_duration * (1 + (c.smoothness - 1/2) * 6)
          let bd := bd * (1/2 + c.beat_sensitivity * (3/2))
          if tsb < bd then
            let base_response := 1/20 + c.beat_sensitivity * (3/4)
            let beat_response :=
              if c.smoothness < 1/2 then base_response * (1 - c.smoothness * (3/10))
              else base_response * (7/10 - (c.smoothness - 1/2) * (2/5))
            beat_response * (1 - tsb / bd)
          else 0
        else 0
      let im := 1/2 + c.beat_sensitivity * 1
      (min 1 (intensity * im * brightness_base + beat_boost), c)
  let brightness := bc.1
  let c := bc.2
  let bm :=
    if c.brightness_control < 1/2 then 1/20 + c.brightness_control * 2 * (19/20)
    else 1 + (c.brightness_control - 1/2) * 2 * (1/5)
  let brightness := brightness * bm
  let brightness := max (1/100) brightness
  let brightness := min 1 brightness
  let ds : List ℕ × ℚ :=
    match fx.dimmer with
    | some o => (data.set (base + o) (byteFloor (pyInt (brightness * 255))), 1)
    | none => (data, brightness)
  let data := ds.1
  let scale := ds.2
  let data := match fx.red with
    | some o => data.set (base + o) (byteFloor (pyInt ((rgb.1 : ℚ) * scale)))
    | none => data
  let data := match fx.green with
    | some o => data.set (base + o) (byteFloor (pyInt ((rgb.2.1 : ℚ) * scale)))
    | none => data
  let data := match fx.blue with
    | some o => data.set (base + o) (byteFloor (pyInt ((rgb.2.2 : ℚ) * scale)))
    | none => data
  let data := match fx.strobe with
    | some o =>
      if c.strobe_level > 1/10 then
        let rate := c.strobe_level * 10
        if pymod (now * rate) 1 < 1/2 then
          data.set (base + o) (min 255 (pyInt (c.strobe_level * 255))).toNat
        else data.set (base + o) 0
      else data.set (base + o) 0
    | none => data
  (c, data, k)

/-- Result of one `_compute_dmx_frame` call: the controller state after
the tick, what remains of the beat queue, the channel buffer handed to
the sink, and the advanced random counter. -/
structure TickResult where
  state : ControllerState
  queue : List BeatEvent
  frame : List ℕ
  rk : ℕ
deriving Repr

/-- `DmxController._compute_dmx_frame()`: allocate the zero buffer, read
the audio snapshot, return it unchanged on blackout (not ambient and no
audio), otherwise run genre adaptation, drop forcing, the queue drain,
the color transition update and the per-fixture render loop. `now` is
`time.time()` (used both for `last_beat_time` on a drained beat and as
`current_time` for the render loop). -/
def computeDmxFrame (T : Trig) (rng : Rand) (c : ControllerState)
    (a : AudioSnapshot) (queue : List BeatEvent) (now : ℚ) (k : ℕ) :
    TickResult :=
  let data := List.replicate DMX_CHANNELS 0
  if ¬c.ambient_mode ∧ ¬a.audio_active then ⟨c, queue, data, k⟩
  else
    let c := applyGenreAdaptation c a
    let c := if a.is_drop then { c with beat_sensitivity := 1, strobe_level := 1/2 }
             else c
    let beatOccurred := !queue.isEmpty
    let c := if beatOccurred then { c with last_beat_time := now } else c
    let ck := updateColors T rng c beatOccurred a.intensity now k
    let out := (List.range ck.1.active_lights).foldl
      (renderLight T rng a beatOccurred now) (ck.1, data, ck.2)
    ⟨out.1, [], out.2.1, out.2.2⟩

/-- `DmxController._do_initialize_colors()` (lock held by the caller). -/
def doInitializeColors (c : ControllerState) : ControllerState :=
  let palette := themePalette c.color_theme
  let palette_size := if palette.length = 0 then 1 else palette.length
  (List.range MAX_LIGHTS).foldl (fun c i =>
    if i < c.active_lights then
      let idx :=
        if c.rainbow_level < 1/5 then 0
        else
          let step := max 1 (pyInt ((palette_size : ℚ) * c.rainbow_level /
            max 1 (c.active_lights : ℚ))).toNat
          (i * step) % palette_size
      let color := if idx < palette.length then getC palette idx else getC palette 0
      { c with target_colors := c.target_colors.set i color,
               current_colors := c.current_colors.set i color }
    else
      { c with target_colors := c.target_colors.set i (0, 0, 0),
               current_colors := c.current_colors.set i (0, 0, 0) }) c

/-- The diverse startup colors assigned in `__init__` before
`_initialize_colors` runs. -/
def initialColors : List (ℤ × ℤ × ℤ) :=
  [(255,0,0),(0,255,0),(0,0,255),(255,255,0),(255,0,255),(0,255,255),
   (255,128,0),(128,0,255)]

/-- `DmxController` state as assigned field-by-field in `__init__`,
before the closing `_initialize_colors()` call. -/
def preInitController : ControllerState where
  active_lights := DEFAULT_LIGHT_COUNT
  current_color_index := 0
  beat_flash_time := List.replicate MAX_LIGHTS 0
  last_beat_time := 0
  target_colors := (List.range MAX_LIGHTS).map
    (fun i => initialColors.getD (i % initialColors.length) (0, 0, 0))
  current_colors := (List.range MAX_LIGHTS).map
    (fun i => initialColors.getD (i % initialColors.length) (0, 0, 0))
  color_fade_progress := List.replicate MAX_LIGHTS 0
  last_color_change := 0
  color_phases := (List.range MAX_LIGHTS).map (fun i => (i : ℚ) * (1/5))
  smoothness := 1/2
  rainbow_level := 1/2
  brightness_control := 1/2
  strobe_level := 0
  beat_sensitivity := 1/2
  mood_match := false
  pattern := .wave
  bpm_sync := 1
  frequency_mode := false
  color_theme := .default
  effect_mode := .none
  echo_enabled := false
  echo_length := 1/2
  chaos_level := 0
  ambient_mode := false
  genre_auto := false
  echo_buffer := []
  effect_phase := 0
  sparkle_positions := List.replicate MAX_LIGHTS 0
  chase_position := 0
  swell_phase := 0
  spectrum_mode := false
  chaos_colors := List.replicate MAX_LIGHTS (255, 255, 255)
  chaos_pattern_timer := 0
  firefly_states := List.replicate MAX_LIGHTS 0

/-- The controller state right after `DmxController.__init__` (which ends
by calling `_initialize_colors`). -/
def initController : ControllerState := doInitializeColors preInitController

/-- `DmxController.set_brightness(value)` (lock acquisition modelled as
successful; on a timeout the source silently skips the store). -/
def setBrightness (c : ControllerState) (v : ℚ) : ControllerState :=
  { c with brightness_control := max 0 (min 1 v) }

/-- `DmxController.set_light_count(count)`: clamp into `[1, MAX_LIGHTS]`,
store, and re-initialize the colors when the count changed. -/
def setLightCount (c : ControllerState) (n : ℤ) : ControllerState :=
  let new_count := (max 1 (min n (MAX_LIGHTS : ℤ))).toNat
  if c.active_lights ≠ new_count then
    doInitializeColors { c with active_lights := new_count }
  else c

/-! ## Concrete inputs used by witnesses and counterexamples -/

/-- A fixed trigonometric oracle (any oracle works for the properties
below; none of them depends on the oracle's values). -/
def trig0 : Trig := ⟨fun _ => 0, fun _ => 0⟩

/-- A fixed randomness oracle. -/
def rand0 : Rand :=
  ⟨fun _ => 1/2, fun _ _ _ => 0, fun _ _ m => List.range m, fun _ n => List.range n⟩

/-- Snapshot of a silent room: no audio activity. -/
def audioSilent : AudioSnapshot := ⟨0, 0, false, 0, 0, 0, false, false, .auto⟩

/-- Snapshot of an active tick reporting a drop. -/
def audioDropSnap : AudioSnapshot := ⟨120, 4/5, true, 7/10, 3/10, 1/5, false, true, .auto⟩

/-- Snapshot of an active tick with no drop. -/
def audioActiveSnap : AudioSnapshot := ⟨120, 4/5, true, 7/10, 3/10, 1/5, false, false, .auto⟩

/-- Fold a list of (smoothed-intensity, wall-clock) inputs through the
build/drop detector, starting from the freshly initialized analyzer. -/
def bdRun (l : List (ℚ × ℚ)) : AnalyzerState :=
  l.foldl (fun s p => detectBuildDrop s p.1 p.2) initAnalyzer

/-- Build/drop input trace: ten quiet blocks at times 0.0 … 0.9, a spike
of intensity 1.0 at t = 1.0 (which enters Building and immediately Drop
in the same tick), then intensity 0.3 at t = 1.9 (which re-enters
Building while the drop flag is still set). -/
def traceBuildDrop : List (ℚ × ℚ) :=
  ((List.range 10).map fun i => ((1 : ℚ)/10, (i : ℚ)/10)) ++ [(1, 1), (3/10, 19/10)]

/-- The same trace extended with quiet ticks at t = 2.0, 2.2 and 2.5 —
all more than 1 s after the drop was set at t = 1.0. -/
def traceDropStuck : List (ℚ × ℚ) :=
  traceBuildDrop ++ [(3/10, 2), (3/10, 11/5), (3/10, 5/2)]

/-- Fold RMS samples through `_update_intensity` from the initial state. -/
def intensityRun (rs : List ℚ) : AnalyzerState := rs.foldl updateIntensity initAnalyzer

/-- Run `_handle_beat` over a list of detection times, collecting every
beat event pushed to the queue. -/
def beatRunAux : AnalyzerState → List BeatEvent → List ℚ → AnalyzerState × List BeatEvent
  | s, evs, [] => (s, evs)
  | s, evs, t :: ts =>
      let r := handleBeat s t
      beatRunAux r.1 (evs ++ r.2.toList) ts

/-- Beat-time trace from the freshly initialized analyzer. -/
def beatRun (ts : List ℚ) : AnalyzerState × List BeatEvent := beatRunAux initAnalyzer [] ts

/-- The BPM values the analyzer can report: 0 before any valid inter-beat
interval has been seen, otherwise a value clamped into
`[MIN_BPM, MAX_BPM]`. -/
def bpmOK (q : ℚ) : Prop := q = 0 ∨ (MIN_BPM ≤ q ∧ q ≤ MAX_BPM)

/-- Analyzer state after one completed block whose FFT put the bass band
at 0.9 and whose RMS was 1 (a reachable "old" snapshot source). -/
def tornOld : AnalyzerState := (audioBlockStep initAnalyzer false 1 900 0 0 0 0).1

/-- The writer state in the middle of the next block: the intensity field
has been written (RMS 1) but the band fields have not yet been
(`_analyze_frequencies` of that block will set bass to 0). -/
def tornMid : AnalyzerState := updateIntensity tornOld 1

/-- A tick on which the snapshot reports a drop, from the initial
controller state. -/
def dropTick1 : TickResult := computeDmxFrame trig0 rand0 initController audioDropSnap [] 1 0

/-- The next tick: the snapshot no longer reports a drop. -/
def dropTick2 : TickResult :=
  computeDmxFrame trig0 rand0 dropTick1.state audioActiveSnap [] 2 dropTick1.rk

/-- One queued beat event, used to exhibit a blackout tick that leaves
the queue untouched. -/
def oneBeat : List BeatEvent := [⟨1, 120, 1⟩]

/-! ## Helper lemmas -/

theorem foldl_preserves_active (f : ControllerState → ℕ → ControllerState)
    (hf : ∀ c i, (f c i).active_lights = c.active_lights) :
    ∀ (l : List ℕ) (c : ControllerState),
      (l.foldl f c).active_lights = c.active_lights := by
  intro l
  induction l with
  | nil => intro c; rfl
  | cons x xs ih => intro c; rw [List.foldl_cons, ih, hf]

theorem doInitializeColors_active (c : ControllerState) :
    (doInitializeColors c).active_lights = c.active_lights := by
  unfold doInitializeColors
  apply foldl_preserves_active
  intro c i
  split <;> rfl

/-! ## Claims -/

/-- C1: whenever the audio snapshot read at the start of a tick has
`audio_active = false` and the controller is not in ambient mode, the
channel frame returned by `_compute_dmx_frame` has all of its
`DMX_CHANNELS` bytes equal to 0, for every combination of the lighting
parameters, oracles, queue contents and tick time. -/
theorem blackout_frame_all_zero (T : Trig) (rng : Rand) (c : ControllerState)
    (a : AudioSnapshot) (q : List BeatEvent) (now : ℚ) (k : ℕ)
    (hA : a.audio_active = false) (hM : c.ambient_mode = false) :
    (computeDmxFrame T rng c a q now k).frame = List.replicate DMX_CHANNELS 0 := by
  simp [computeDmxFrame, hA, hM]

attribute [local semireducible] Rat.add Rat.mul Rat.inv Rat.sub Rat.ofScientific in
/-- Witness for C1 at a concrete silent tick from the initial controller. -/
theorem blackout_frame_all_zero_witness :
    audioSilent.audio_active = false ∧ initController.ambient_mode = false ∧
    (computeDmxFrame trig0 rand0 initController audioSilent [] 0 0).frame =
      List.replicate DMX_CHANNELS 0 :=
  ⟨rfl, by decide,
   blackout_frame_all_zero trig0 rand0 initController audioSilent [] 0 0 rfl (by decide)⟩

/-- C10: a blackout tick (`audio_active = false`, ambient mode off)
mutates no engine state at all: `_compute_dmx_frame` returns with the
controller state (every parameter, color array, fade progress, pattern,
`last_beat_time`, …) exactly as before the call, the queue untouched and
the randomness source unconsumed. -/
theorem blackout_tick_no_mutation (T : Trig) (rng : Rand) (c : ControllerState)
    (a : AudioSnapshot) (q : List BeatEvent) (now : ℚ) (k : ℕ)
    (hA : a.audio_active = false) (hM : c.ambient_mode = false) :
    (computeDmxFrame T rng c a q now k).state = c ∧
    (computeDmxFrame T rng c a q now k).queue = q ∧
    (computeDmxFrame T rng c a q now k).rk = k := by
  refine ⟨?_, ?_, ?_⟩ <;> simp [computeDmxFrame, hA, hM]

attribute [local semireducible] Rat.add Rat.mul Rat.inv Rat.sub Rat.ofScientific in
/-- Witness for C10 at a concrete silent tick. -/
theorem blackout_tick_no_mutation_witness :
    audioSilent.audio_active = false ∧ initController.ambient_mode = false ∧
    ((computeDmxFrame trig0 rand0 initController audioSilent oneBeat 5 3).state =
       initController ∧
     (computeDmxFrame trig0 rand0 initController audioSilent oneBeat 5 3).queue = oneBeat ∧
     (computeDmxFrame trig0 rand0 initController audioSilent oneBeat 5 3).rk = 3) :=
  ⟨rfl, by decide,
   blackout_tick_no_mutation trig0 rand0 initController audioSilent oneBeat 5 3
     rfl (by decide)⟩

attribute [local semireducible] Rat.add Rat.mul Rat.inv Rat.sub Rat.ofScientific in
/-- C7 counterexample: a blackout tick returns before the drain loop, so
a nonempty beat queue is left exactly as it was — the claim that every
tick (including blackout ticks) drains the queue until empty is false. -/
theorem blackout_skips_queue_drain :
    (computeDmxFrame trig0 rand0 initController audioSilent oneBeat 1 0).queue = oneBeat ∧
    oneBeat ≠ [] := by
  exact ⟨rfl, by decide⟩

/-- C7 amended: the beat queue is drained to empty on every non-blackout
tick; a blackout tick returns early, before the drain loop, and leaves
the queue exactly as it was. -/
theorem queue_drained_iff_not_blackout (T : Trig) (rng : Rand)
    (c : ControllerState) (a : AudioSnapshot) (q : List BeatEvent)
    (now : ℚ) (k : ℕ) :
    (computeDmxFrame T rng c a q now k).queue =
      if c.ambient_mode = false ∧ a.audio_active = false then q else [] := by
  by_cases hM : c.ambient_mode <;> by_cases hA : a.audio_active <;>
    simp [computeDmxFrame, hM, hA]

/-- C8: `set_brightness` stores the input clamped into `[0, 1]` and
`set_light_count` stores the input clamped into `[1, MAX_LIGHTS]`, for
every rational and integer input respectively; both setters are total
functions of the state (nothing is raised to the caller). -/
theorem setters_clamp (c : ControllerState) (v : ℚ) (n : ℤ) :
    (setBrightness c v).brightness_control = min 1 (max 0 v) ∧
    ((setLightCount c n).active_lights : ℤ) = min (MAX_LIGHTS : ℤ) (max 1 n) := by
  constructor
  · show max 0 (min 1 v) = min 1 (max 0 v)
    rcases le_total v 0 with h | h
    · rw [max_eq_left h, min_eq_right (h.trans zero_le_one),
        max_eq_left h, min_eq_right zero_le_one]
    · rw [max_eq_right h]
      rcases le_total v 1 with h' | h'
      · rw [min_eq_right h', max_eq_right h]
      · rw [min_eq_left h']
        exact max_eq_right zero_le_one
  · unfold setLightCount
    simp only [MAX_LIGHTS] at *
    split
    · rw [doInitializeColors_active]
      show (((max 1 (min n 8)).toNat : ℤ)) = min 8 (max 1 n)
      omega
    · next h =>
      rw [not_ne_iff] at h
      rw [h]
      omega

theorem pushCap_subset (cap : ℕ) (l : List ℚ) (x : ℚ) :
    ∀ y ∈ pushCap cap l x, y ∈ l ++ [x] := by
  intro y hy
  simp only [pushCap] at hy
  split at hy
  · exact (List.drop_sublist _ _).subset hy
  · exact hy

theorem qmean_nonneg (l : List ℚ) (h : ∀ x ∈ l, 0 ≤ x) : 0 ≤ qmean l :=
  div_nonneg (List.sum_nonneg h) (by exact_mod_cast Nat.zero_le _)

theorem updateIntensity_bounds (s : AnalyzerState) (r : ℚ)
    (h0 : 0 ≤ s.current_intensity) (_h1 : s.current_intensity ≤ 1)
    (hh : ∀ x ∈ s.intensity_history, 0 ≤ x) (hr : 0 ≤ r) :
    0 ≤ (updateIntensity s r).current_intensity ∧
    (updateIntensity s r).current_intensity ≤ 1 ∧
    ∀ x ∈ (updateIntensity s r).intensity_history, 0 ≤ x := by
  have hmem : ∀ x ∈ pushCap 5 s.intensity_history r, 0 ≤ x := by
    intro x hx
    rcases List.mem_append.mp (pushCap_subset 5 s.intensity_history r x hx) with h | h
    · exact hh x h
    · rw [List.mem_singleton.mp h]; exact hr
  have hmean := qmean_nonneg _ hmem
  refine ⟨?_, ?_, hmem⟩
  · show 0 ≤ min 1 ((7/10) * s.current_intensity +
      (3/10) * qmean (pushCap 5 s.intensity_history r))
    apply le_min zero_le_one
    nlinarith
  · exact min_le_left _ _

theorem intensityFold_inv (rs : List ℚ) :
    ∀ s : AnalyzerState, (∀ r ∈ rs, 0 ≤ r) →
      0 ≤ s.current_intensity → s.current_intensity ≤ 1 →
      (∀ x ∈ s.intensity_history, 0 ≤ x) →
      0 ≤ (rs.foldl updateIntensity s).current_intensity ∧
      (rs.foldl updateIntensity s).current_intensity ≤ 1 := by
  induction rs with
  | nil => intro s _ h0 h1 _; exact ⟨h0, h1⟩
  | cons r rs ih =>
      intro s hrs h0 h1 hh
      obtain ⟨a, b, hm⟩ := updateIntensity_bounds s r h0 h1 hh (hrs r (by simp))
      exact ih _ (fun x hx => hrs x (by simp [hx])) a b hm

/-- C9: for every sequence of nonnegative RMS inputs (including values
far above 1), the smoothed intensity after the `_update_intensity` calls
stays in `[0, 1]`, starting from the initial value 0 (every prefix of the
input sequence is itself such a sequence, so the bound holds after each
call). -/
theorem intensity_in_unit_interval (rs : List ℚ) (h : ∀ r ∈ rs, 0 ≤ r) :
    0 ≤ (intensityRun rs).current_intensity ∧
    (intensityRun rs).current_intensity ≤ 1 :=
  intensityFold_inv rs initAnalyzer h le_rfl zero_le_one (by simp [initAnalyzer])

attribute [local semireducible] Rat.add Rat.mul Rat.inv Rat.sub Rat.ofScientific in
/-- Witness for C9 on a trace with an RMS spike of 5. -/
theorem intensity_in_unit_interval_witness :
    (∀ r ∈ ([5, 1/2, 3] : List ℚ), 0 ≤ r) ∧
    (0 ≤ (intensityRun [5, 1/2, 3]).current_intensity ∧
     (intensityRun [5, 1/2, 3]).current_intensity ≤ 1) :=
  ⟨by decide, intensity_in_unit_interval [5, 1/2, 3] (by decide)⟩

theorem bpmOK_clamp (P : Prop) [Decidable P] (q old : ℚ) (h : bpmOK old) :
    bpmOK (if P then max MIN_BPM (min MAX_BPM q) else old) := by
  split
  · right
    exact ⟨le_max_left _ _,
      max_le (by norm_num [MIN_BPM, MAX_BPM]) (min_le_left _ _)⟩
  · exact h

theorem handleBeat_bpmOK (s : AnalyzerState) (t : ℚ) (h : bpmOK s.current_bpm) :
    bpmOK (handleBeat s t).1.current_bpm ∧
    ∀ e ∈ (handleBeat s t).2, bpmOK e.bpm := by
  unfold handleBeat
  split
  · exact ⟨h, by simp⟩
  · refine ⟨bpmOK_clamp _ _ _ h, ?_⟩
    intro e he
    simp only [Option.mem_def, Option.some.injEq] at he
    rw [← he]
    exact bpmOK_clamp _ _ _ h

theorem beatRunAux_bpmOK (ts : List ℚ) :
    ∀ (s : AnalyzerState) (evs : List BeatEvent),
      bpmOK s.current_bpm → (∀ e ∈ evs, bpmOK e.bpm) →
      bpmOK (beatRunAux s evs ts).1.current_bpm ∧
      ∀ e ∈ (beatRunAux s evs ts).2, bpmOK e.bpm := by
  induction ts with
  | nil => intro s evs h1 h2; exact ⟨h1, h2⟩
  | cons t ts ih =>
      intro s evs h1 h2
      obtain ⟨k1, k2⟩ := handleBeat_bpmOK s t h1
      simp only [beatRunAux]
      refine ih _ _ k1 ?_
      intro e he
      rcases List.mem_append.mp he with hm | hm
      · exact h2 e hm
      · exact k2 e (Option.mem_toList.mp hm)

attribute [local semireducible] Rat.add Rat.mul Rat.inv Rat.sub Rat.ofScientific in
/-- C6 counterexample: the very first accepted beat (debounce passed,
1 s after start) emits a beat event whose `bpm` field is 0, and leaves
`current_bpm` at 0 — both below `MIN_BPM`, so "BPM lies within
[MIN_BPM, MAX_BPM] for every accepted beat" is false. -/
theorem first_beat_event_bpm_below_min :
    (beatRun [1]).2 = [⟨1, 0, 0⟩] ∧ (beatRun [1]).1.current_bpm = 0 ∧
    ¬ MIN_BPM ≤ (0 : ℚ) :=
  ⟨by decide, by decide, by norm_num [MIN_BPM]⟩

/-- C6 amended: for every sequence of beat-detection times, the
extractor's `current_bpm` and the `bpm` field of every emitted beat
event are either 0 (no valid inter-beat interval seen yet — in
particular on the first accepted beat) or clamped into
`[MIN_BPM, MAX_BPM]`. -/
theorem bpm_zero_or_in_range (ts : List ℚ) :
    bpmOK (beatRun ts).1.current_bpm ∧ ∀ e ∈ (beatRun ts).2, bpmOK e.bpm :=
  beatRunAux_bpmOK ts initAnalyzer [] (Or.inl rfl) (by simp)

attribute [local semireducible] Rat.add Rat.mul Rat.inv Rat.sub Rat.ofScientific in
/-- C4 counterexample: after the quiet-then-spike-then-rebuild trace the
build/drop state machine ends a tick with `is_building` and `is_drop`
both true (the drop at t = 1.0 is still within its 1 s window when the
tick at t = 1.9 re-enters Building), so the flags are not mutually
exclusive at every tick. -/
theorem build_and_drop_simultaneously :
    (bdRun traceBuildDrop).is_building = true ∧
    (bdRun traceBuildDrop).is_drop = true :=
  ⟨by decide, by decide⟩

/-- C4 amended: mutual exclusion holds at the tick that first raises the
drop flag — the Building→Drop transition clears `is_building` — but it
does not hold in general, because a later tick can re-enter Building
while `is_drop` is still set. -/
theorem buildDropFlags_entry_clears (ob : Bool) (os : ℚ) (b1 t2 : Bool) (now : ℚ)
    (h : (buildDropFlags ob false os b1 t2 now).2.1 = true) :
    (buildDropFlags ob false os b1 t2 now).1 = false := by
  cases b1 <;> cases t2 <;> cases ob <;> simp_all [buildDropFlags]

theorem drop_entry_clears_building (s : AnalyzerState) (x now : ℚ)
    (h1 : s.is_drop = false)
    (h2 : (detectBuildDrop s x now).is_drop = true) :
    (detectBuildDrop s x now).is_building = false := by
  by_cases hlen : (pushCap 30 s.intensity_trend x).length < 10
  · simp only [detectBuildDrop, if_pos hlen] at h2
    rw [h1] at h2
    exact absurd h2 (by simp)
  · simp only [detectBuildDrop, if_neg hlen] at h2 ⊢
    rw [h1] at h2 ⊢
    exact buildDropFlags_entry_clears _ _ _ _ _ h2

attribute [local semireducible] Rat.add Rat.mul Rat.inv Rat.sub Rat.ofScientific in
/-- Witness for the amended C4 at the spike tick of the trace. -/
theorem drop_entry_clears_building_witness :
    (bdRun (traceBuildDrop.take 10)).is_drop = false ∧
    (detectBuildDrop (bdRun (traceBuildDrop.take 10)) 1 1).is_drop = true ∧
    (detectBuildDrop (bdRun (traceBuildDrop.take 10)) 1 1).is_building = false :=
  ⟨by decide, by decide,
   drop_entry_clears_building (bdRun (traceBuildDrop.take 10)) 1 1
     (by decide) (by decide)⟩

attribute [local semireducible] Rat.add Rat.mul Rat.inv Rat.sub Rat.ofScientific in
/-- C5 counterexample: the drop flag is set at the tick at time 1.0, and
is still set at the ticks at times 2.0, 2.2 and 2.5 — up to 1.5 s after
entry, well past 1.0 s plus one tick — because the tick at t = 1.9
re-entered Building and reset `build_start_time`, the reference point of
the expiry check; so "is_drop clears exactly 1.0 s after being set,
independent of further input" is false. -/
theorem drop_not_cleared_one_second_after_entry :
    (bdRun (traceDropStuck.take 10)).is_drop = false ∧
    (bdRun (traceDropStuck.take 11)).is_drop = true ∧
    (bdRun (traceDropStuck.take 14)).is_drop = true ∧
    (bdRun traceDropStuck).is_drop = true :=
  ⟨by decide, by decide, by decide, by decide⟩

theorem pushCap_length (cap : ℕ) (l : List ℚ) (x : ℚ) :
    (pushCap cap l x).length = if cap < l.length + 1 then cap else l.length + 1 := by
  simp only [pushCap, List.length_append, List.length_singleton]
  split <;> rename_i h <;> simp [List.length_drop] <;> omega

/-- C5 amended: whenever a tick leaves `is_drop` set, at most 1 second
has elapsed since `build_start_time`, the time of the most recent entry
into Building — the expiry timer is measured from the latest build
entry (which a re-build during the drop window resets), not from drop
entry. -/
theorem buildDropFlags_window (ob od : Bool) (os : ℚ) (b1 t2 : Bool) (now : ℚ)
    (h : (buildDropFlags ob od os b1 t2 now).2.1 = true) :
    now ≤ (buildDropFlags ob od os b1 t2 now).2.2 + 1 := by
  cases b1 <;> cases t2 <;> cases ob <;> cases od <;>
    simp_all [buildDropFlags] <;> linarith

theorem drop_within_build_window (s : AnalyzerState) (x now : ℚ)
    (hlen : 9 ≤ s.intensity_trend.length)
    (hdrop : (detectBuildDrop s x now).is_drop = true) :
    now ≤ (detectBuildDrop s x now).build_start_time + 1 := by
  have hlen' : ¬ (pushCap 30 s.intensity_trend x).length < 10 := by
    rw [pushCap_length]; split <;> omega
  simp only [detectBuildDrop, if_neg hlen'] at hdrop ⊢
  exact buildDropFlags_window _ _ _ _ _ _ hdrop

attribute [local semireducible] Rat.add Rat.mul Rat.inv Rat.sub Rat.ofScientific in
/-- Witness for the amended C5 at the tick at t = 2.2 of the trace. -/
theorem drop_within_build_window_witness :
    9 ≤ (bdRun (traceDropStuck.take 13)).intensity_trend.length ∧
    (detectBuildDrop (bdRun (traceDropStuck.take 13)) (3/10) (11/5)).is_drop = true ∧
    (11/5 : ℚ) ≤
      (detectBuildDrop (bdRun (traceDropStuck.take 13)) (3/10) (11/5)).build_start_time + 1 :=
  ⟨by decide, by decide,
   drop_within_build_window (bdRun (traceDropStuck.take 13)) (3/10) (11/5)
     (by decide) (by decide)⟩

attribute [local semireducible] Rat.add Rat.mul Rat.inv Rat.sub Rat.ofScientific in
/-- C2 (code-bug evidence): the claim's justification — "every write of
the snapshot fields and every read happens under the state lock" — is
false in the code: `_update_shared_state` is the only writer-side use of
the lock and its locked body is `pass` (it writes nothing; first
conjunct), while the actual field writes happen unlocked, one source
function at a time, in loop order (second conjunct exhibits the post-
intensity / pre-band cut of a block as a genuine decomposition point of
the block step). A reader running `get_state` at that cut — permitted,
since the writer holds no lock there — observes a snapshot that differs
from both the pre-block and the post-block snapshots: a torn mix of the
new intensity with the old bass value (last two conjuncts). -/
theorem torn_snapshot_between_unlocked_writes :
    updateSharedState = (fun s => s) ∧
    (audioBlockStep tornOld false 1 0 0 0 1 1).1 =
      (let s1 := analyzeFrequencies tornMid 0 0 0
       let s2 := detectBuildDrop s1 s1.current_intensity 1
       let s3 := detectGenre s2 s2.current_bpm s2.bass_intensity false
       updateSharedState (updateAudioPresence s3 1)) ∧
    getState tornMid ≠ getState tornOld ∧
    getState tornMid ≠ getState (audioBlockStep tornOld false 1 0 0 0 1 1).1 :=
  ⟨rfl, rfl, by decide, by decide⟩

theorem applySpecialEffect_params (T : Trig) (rng : Rand) (c : ControllerState)
    (r g b : ℤ) (i : ℕ) (now intensity : ℚ) (k : ℕ) :
    (applySpecialEffect T rng c r g b i now intensity k).2.1.beat_sensitivity =
      c.beat_sensitivity ∧
    (applySpecialEffect T rng c r g b i now intensity k).2.1.strobe_level =
      c.strobe_level := by
  cases heff : c.effect_mode <;>
    simp only [applySpecialEffect, heff] <;>
    (repeat' split) <;> simp

theorem applyChaos_params (rng : Rand) (c : ControllerState) (r g b : ℤ)
    (i : ℕ) (bo : Bool) (k : ℕ) :
    (applyChaos rng c r g b i bo k).2.1.beat_sensitivity = c.beat_sensitivity ∧
    (applyChaos rng c r g b i bo k).2.1.strobe_level = c.strobe_level := by
  simp only [applyChaos]
  (repeat' split) <;> simp

theorem foldl_preserves_params (f : ControllerState → ℕ → ControllerState)
    (hf : ∀ c i, (f c i).beat_sensitivity = c.beat_sensitivity ∧
                 (f c i).strobe_level = c.strobe_level)
    (l : List ℕ) (c : ControllerState) :
    (List.foldl f c l).beat_sensitivity = c.beat_sensitivity ∧
    (List.foldl f c l).strobe_level = c.strobe_level := by
  induction l generalizing c with
  | nil => exact ⟨rfl, rfl⟩
  | cons x xs ih =>
      rw [List.foldl_cons]
      obtain ⟨h1, h2⟩ := ih (f c x)
      obtain ⟨g1, g2⟩ := hf c x
      exact ⟨h1.trans g1, h2.trans g2⟩

theorem assignTargets_params (c : ControllerState) (f : ℕ → ℤ × ℤ × ℤ) :
    (assignTargets c f).beat_sensitivity = c.beat_sensitivity ∧
    (assignTargets c f).strobe_level = c.strobe_level := by
  simp only [assignTargets]
  refine foldl_preserves_params _ ?_ _ _
  intro c2 i
  exact ⟨rfl, rfl⟩

theorem selectNewColors_params (rng : Rand) (c : ControllerState) (k : ℕ) :
    (selectNewColors rng c k).1.beat_sensitivity = c.beat_sensitivity ∧
    (selectNewColors rng c k).1.strobe_level = c.strobe_level := by
  simp only [selectNewColors]
  (repeat' split) <;> simp [assignTargets_params]

theorem updateColorFades_params (T : Trig) (c : ControllerState) :
    (updateColorFades T c).beat_sensitivity = c.beat_sensitivity ∧
    (updateColorFades T c).strobe_level = c.strobe_level := by
  simp only [updateColorFades]
  refine foldl_preserves_params _ ?_ _ _
  intro c2 i
  split <;> exact ⟨rfl, rfl⟩

theorem updateColors_params (T : Trig) (rng : Rand) (c : ControllerState)
    (bo : Bool) (intensity now : ℚ) (k : ℕ) :
    (updateColors T rng c bo intensity now k).1.beat_sensitivity = c.beat_sensitivity ∧
    (updateColors T rng c bo intensity now k).1.strobe_level = c.strobe_level := by
  simp only [updateColors]
  constructor <;>
    simp only [updateColorFades_params, apply_ite Prod.fst,
      apply_ite ControllerState.beat_sensitivity,
      apply_ite ControllerState.strobe_level, selectNewColors_params, ite_self]

theorem renderLight_params (T : Trig) (rng : Rand) (a : AudioSnapshot)
    (bo : Bool) (now : ℚ) (acc : ControllerState × List ℕ × ℕ) (i : ℕ) :
    (renderLight T rng a bo now acc i).1.beat_sensitivity = acc.1.beat_sensitivity ∧
    (renderLight T rng a bo now acc i).1.strobe_level = acc.1.strobe_level := by
  simp only [renderLight]
  constructor <;>
    simp [apply_ite Prod.snd, apply_ite ControllerState.beat_sensitivity,
      apply_ite ControllerState.strobe_level, ite_self,
      applyChaos_params, applySpecialEffect_params]

theorem foldl_renderLight_params (T : Trig) (rng : Rand) (a : AudioSnapshot)
    (bo : Bool) (now : ℚ) (l : List ℕ) (acc : ControllerState × List ℕ × ℕ) :
    (List.foldl (renderLight T rng a bo now) acc l).1.beat_sensitivity =
      acc.1.beat_sensitivity ∧
    (List.foldl (renderLight T rng a bo now) acc l).1.strobe_level =
      acc.1.strobe_level := by
  induction l generalizing acc with
  | nil => exact ⟨rfl, rfl⟩
  | cons x xs ih =>
      rw [List.foldl_cons]
      obtain ⟨h1, h2⟩ := ih (renderLight T rng a bo now acc x)
      obtain ⟨g1, g2⟩ := renderLight_params T rng a bo now acc x
      exact ⟨h1.trans g1, h2.trans g2⟩

theorem applyGenreAdaptation_off (c : ControllerState) (a : AudioSnapshot)
    (hg : c.genre_auto = false) : applyGenreAdaptation c a = c := by
  simp [applyGenreAdaptation, hg]

theorem tick_params (T : Trig) (rng : Rand) (c : ControllerState)
    (a : AudioSnapshot) (q : List BeatEvent) (now : ℚ) (k : ℕ)
    (h : c.ambient_mode = true ∨ a.audio_active = true)
    (hg : c.genre_auto = false) :
    (computeDmxFrame T rng c a q now k).state.beat_sensitivity =
      (if a.is_drop then 1 else c.beat_sensitivity) ∧
    (computeDmxFrame T rng c a q now k).state.strobe_level =
      (if a.is_drop then 1/2 else c.strobe_level) := by
  have hcond : ¬(¬(c.ambient_mode = true) ∧ ¬(a.audio_active = true)) := by
    rcases h with h | h <;> simp [h]
  simp only [computeDmxFrame, if_neg hcond, applyGenreAdaptation_off c a hg]
  constructor <;>
    simp only [foldl_renderLight_params, updateColors_params] <;>
    by_cases hd : a.is_drop = true <;>
    simp [hd, apply_ite ControllerState.beat_sensitivity,
      apply_ite ControllerState.strobe_level]

/-- C3 amended: on a non-blackout tick whose snapshot reports a drop
(genre-auto off), `beat_sensitivity` is forced to the maximum 1.0 and
`strobe_level` to the moderate 0.5 by plain field assignment — and the
forcing persists: any tick whose snapshot does not report a drop
(genre-auto off) returns both parameters exactly as it found them, so
after a drop they remain at the forced values instead of reverting to
their pre-drop values. -/
theorem drop_forcing_persists (T : Trig) (rng : Rand) (c : ControllerState)
    (a : AudioSnapshot) (q : List BeatEvent) (now : ℚ) (k : ℕ)
    (hg : c.genre_auto = false) :
    (a.is_drop = true → (c.ambient_mode = true ∨ a.audio_active = true) →
      (computeDmxFrame T rng c a q now k).state.beat_sensitivity = 1 ∧
      (computeDmxFrame T rng c a q now k).state.strobe_level = 1/2) ∧
    (a.is_drop = false →
      (computeDmxFrame T rng c a q now k).state.beat_sensitivity =
        c.beat_sensitivity ∧
      (computeDmxFrame T rng c a q now k).state.strobe_level = c.strobe_level) := by
  constructor
  · intro hd hnb
    obtain ⟨h1, h2⟩ := tick_params T rng c a q now k hnb hg
    rw [hd] at h1 h2
    simp only [if_true] at h1 h2
    exact ⟨h1, h2⟩
  · intro hd
    by_cases hM : c.ambient_mode = true
    · obtain ⟨h1, h2⟩ := tick_params T rng c a q now k (Or.inl hM) hg
      rw [hd] at h1 h2
      simp only [Bool.false_eq_true, if_false] at h1 h2
      exact ⟨h1, h2⟩
    · by_cases hA : a.audio_active = true
      · obtain ⟨h1, h2⟩ := tick_params T rng c a q now k (Or.inr hA) hg
        rw [hd] at h1 h2
        simp only [Bool.false_eq_true, if_false] at h1 h2
        exact ⟨h1, h2⟩
      · simp only [computeDmxFrame, if_pos (And.intro hM hA)]
        exact ⟨trivial, trivial⟩

attribute [local semireducible] Rat.add Rat.mul Rat.inv Rat.sub Rat.ofScientific in
/-- Witness for the amended C3 at a concrete drop tick. -/
theorem drop_forcing_persists_witness :
    initController.genre_auto = false ∧
    ((computeDmxFrame trig0 rand0 initController audioDropSnap [] 1 0).state.beat_sensitivity = 1 ∧
     (computeDmxFrame trig0 rand0 initController audioDropSnap [] 1 0).state.strobe_level = 1/2) :=
  ⟨by decide,
   (drop_forcing_persists trig0 rand0 initController audioDropSnap [] 1 0
     (by decide)).1 rfl (Or.inr rfl)⟩

attribute [local semireducible] Rat.add Rat.mul Rat.inv Rat.sub Rat.ofScientific in
/-- C3 counterexample: from the default parameters (beat_sensitivity 0.5,
strobe_level 0.0) a drop tick forces (1.0, 0.5); the next tick's
snapshot no longer reports a drop, yet both parameters are still at the
forced values (1.0, 0.5), not the pre-drop (0.5, 0.0) — the forcing
persists beyond the drop tick rather than applying "for the remainder of
that tick only". -/
theorem drop_forcing_not_reverted :
    initController.beat_sensitivity = 1/2 ∧ initController.strobe_level = 0 ∧
    audioActiveSnap.is_drop = false ∧
    dropTick2.state.beat_sensitivity = 1 ∧ dropTick2.state.strobe_level = 1/2 :=
  ⟨by decide, by decide, rfl, by decide, by decide⟩

end Lightshow
